import Mathlib

/-!
Shallow embedding of the IB gateway lifecycle subsystem of the
`interactive-brokers-mcp` repository, together with proofs about it.

The embedding translates:
* `src/utils/port-utils.ts` (`PortUtils`): port probing, alternate-port
  search, gateway-process classification and discovery, with the OS-level
  shell-outs abstracted as oracles (`avail : Nat → Bool` for the
  `isPortAvailable` answer on each port, `listing : Nat → Option String`
  for the process-listing command output, `none` meaning the command
  errored).
* `src/utils/config-utils.ts` (`ConfigUtils`): the temporary overlay
  config file (name, path and `listenPort` substitution).
* `src/gateway-manager.ts` (`IBGatewayManager`): the manager state, the
  pure state transformers (`stopGateway`, `isGatewayReady`,
  `getGatewayUrl`, `getCurrentPort`, `startGatewayAsync`,
  `quickStartGateway`), the stdout readiness handler, the
  `waitForGateway` polling loop, the port-selection slice of
  `startGatewayInternal`, a sequential model of `ensureGatewayReady`, and
  an interleaved small-step system modelling concurrent
  `ensureGatewayReady` callers on the shared manager state (JavaScript
  event-loop semantics: code between two `await`s is atomic).

Machine effects (spawning a process, sending it a signal, probing a
port, issuing an HTTPS health request) are recorded explicitly so that
theorems can talk about which effects an operation does or does not
perform.
-/

set_option maxRecDepth 8192

deriving instance DecidableEq for Except

/-- Error taxonomy of the gateway lifecycle subsystem.  Each constructor
corresponds to one `throw new Error(...)` site of the source. -/
inductive GwError
  | gatewayNotInstalled
  | runtimeNotFound
  | noAvailablePortsFound
  | gatewayStartupTimeout
  | externalGatewayUnreachable
deriving DecidableEq, Repr

/-- Observable machine effects of the manager's operations. -/
inductive GwEffect
  | discoveryProbe
  | portProbe (port : Nat)
  | healthProbe (host : String) (port : Nat)
  | writeTempConfig (port : Nat)
  | spawnProcess (port : Nat) (configFile : String)
  | killProcess
deriving DecidableEq, Repr

/-! ### Character and string helpers

`String.toLower` / `String.trim` from the library do not reduce well in
the kernel, so the JavaScript string operations used by the source
(`toLowerCase`, `trim`, `includes`) are modelled directly on `List Char`
for the ASCII range they are applied to. -/

/-- ASCII lower-casing of one character (JavaScript `toLowerCase` on the
ASCII range, which covers every string the source lower-cases). -/
def lowerChar (c : Char) : Char :=
  if 'A' ≤ c && c ≤ 'Z' then Char.ofNat (c.toNat + 32) else c

/-- ASCII lower-casing of a character list. -/
def lowerChars (cs : List Char) : List Char :=
  cs.map lowerChar

/-- Whitespace test used by JavaScript `trim` and by the regex class
`\s` (restricted to the ASCII whitespace characters). -/
def isWsChar (c : Char) : Bool :=
  c = ' ' || c = '\t' || c = '\n' || c = '\r' || c = '\x0b' || c = '\x0c'

/-- JavaScript `trim`: strip whitespace from both ends. -/
def trimChars (cs : List Char) : List Char :=
  ((cs.dropWhile isWsChar).reverse.dropWhile isWsChar).reverse

/-- JavaScript `String.prototype.includes`: `containsSub hay needle` is
true when `needle` occurs contiguously inside `hay`. -/
def containsSub (hay needle : List Char) : Bool :=
  match hay with
  | [] => needle.isEmpty
  | _ :: rest => needle.isPrefixOf hay || containsSub rest needle

/-! ### PortUtils (`src/utils/port-utils.ts`)

`isPortAvailable` shells out to an OS command; its answer is the oracle
`avail : Nat → Bool` (`true` = available).  `isGatewayProcess` shells
out to a process-listing command; its raw output is the oracle
`listing : Nat → Option String` (`none` = the command errored). -/

/-- `PortUtils.findAvailablePort` loop body: scan `p, p+1, …` for at
most `k` ports, returning the first one the oracle reports available. -/
def findAvailablePortFrom (avail : Nat → Bool) : Nat → Nat → Option Nat
  | _, 0 => none
  | p, k + 1 => if avail p then some p else findAvailablePortFrom avail (p + 1) k

/-- `PortUtils.findAvailablePort(startPort, maxAttempts)`: first
available port in `startPort … startPort+maxAttempts-1`, else the
`NoAvailablePortsFound` error. -/
def findAvailablePort (avail : Nat → Bool) (startPort maxAttempts : Nat) :
    Except GwError Nat :=
  match findAvailablePortFrom avail startPort maxAttempts with
  | some p => .ok p
  | none => .error .noAvailablePortsFound

/-- The fixed case-insensitive indicator keywords of
`PortUtils.isGatewayProcess`. -/
def gatewayIndicators : List String :=
  ["java", "clientportal", "gateway", "ib"]

/-- `PortUtils.isGatewayProcess(port)` applied to the raw output of the
process-listing command for that port: `false` when the command errored
or printed only whitespace; otherwise lower-case the output and test it
for any of the fixed indicator substrings. -/
def isGatewayProcess (output : Option String) : Bool :=
  match output with
  | none => false
  | some stdout =>
    if (trimChars stdout.toList).isEmpty then false
    else gatewayIndicators.any fun ind =>
      containsSub (lowerChars stdout.toList) ind.toList

/-- The fixed conventional ports scanned by
`PortUtils.findExistingGateway`. -/
def commonPorts : List Nat :=
  [5000, 5001, 5002, 5003, 5004, 5005]

/-- `PortUtils.findExistingGateway` loop: for each candidate port, if it
is in use (`avail` says not available) and its process listing
classifies as a gateway, return it; otherwise keep scanning. -/
def findExistingGatewayAux (avail : Nat → Bool) (listing : Nat → Option String) :
    List Nat → Option Nat
  | [] => none
  | p :: rest =>
    if avail p then findExistingGatewayAux avail listing rest
    else if isGatewayProcess (listing p) then some p
    else findExistingGatewayAux avail listing rest

/-- `PortUtils.findExistingGateway()`. -/
def findExistingGateway (avail : Nat → Bool) (listing : Nat → Option String) :
    Option Nat :=
  findExistingGatewayAux avail listing commonPorts

/-! ### ConfigUtils (`src/utils/config-utils.ts`) -/

/-- Length of a match of the regex `listenPort:\s*\d+` anchored at the
head of `cs`, if any (the literal key, then greedy whitespace, then at
least one greedy digit). -/
def listenPortMatchLen (cs : List Char) : Option Nat :=
  if "listenPort:".toList.isPrefixOf cs then
    let rest := cs.drop 11
    let ws := rest.takeWhile isWsChar
    let ds := (rest.drop ws.length).takeWhile Char.isDigit
    if ds.length > 0 then some (11 + ws.length + ds.length) else none
  else none

/-- JavaScript `content.replace(/listenPort:\s*\d+/, "listenPort: " + port)`:
replace the first (leftmost) match, leave the string unchanged when
there is none. -/
def replaceListenPort (cs : List Char) (port : Nat) : List Char :=
  match cs with
  | [] => []
  | c :: rest =>
    match listenPortMatchLen (c :: rest) with
    | some n => ("listenPort: ".toList ++ (Nat.repr port).toList) ++ (c :: rest).drop n
    | none => c :: replaceListenPort rest port

/-- File name of the temporary overlay config for a port
(`conf-<port>.yaml`). -/
def tempConfigFileName (port : Nat) : String :=
  "conf-" ++ Nat.repr port ++ ".yaml"

/-- `ConfigUtils.createTempConfigWithPort`: the path (relative to the
gateway directory) and the content of the temporary config file written
for `port`, given the content of the original `conf.yaml`. -/
def createTempConfigWithPort (original : String) (port : Nat) : String × String :=
  ("clientportal.gw/root/" ++ tempConfigFileName port,
   String.mk (replaceListenPort original.toList port))

/-! ### Manager state (`src/gateway-manager.ts`, class fields) -/

/-- The instance fields of `IBGatewayManager`, with the constructor's
initial values as defaults.  `gatewayProcess` abstracts the
`ChildProcess` reference to its presence; `backgroundStartupPromise`
abstracts the stored promise to its presence. -/
structure GatewayState where
  gatewayProcess : Option Unit := none
  gatewayDir : String := "ib-gateway"
  jreDir : String := "runtime"
  isStarting : Bool := false
  isReady : Bool := false
  useStderr : Bool := true
  cleanupHandlersRegistered : Bool := true
  currentPort : Nat := 5000
  backgroundStartupPromise : Option Unit := none
deriving DecidableEq, Repr

/-- The state of a freshly constructed manager. -/
def initialState : GatewayState := {}

/-- `isGatewayReady()`: `this.isReady && this.gatewayProcess !== null`. -/
def isGatewayReady (s : GatewayState) : Bool :=
  s.isReady && s.gatewayProcess.isSome

/-- `getGatewayUrl()`: the template literal
`https://localhost:${this.currentPort}`. -/
def getGatewayUrl (s : GatewayState) : String :=
  "https://localhost:" ++ Nat.repr s.currentPort

/-- `getCurrentPort()`. -/
def getCurrentPort (s : GatewayState) : Nat :=
  s.currentPort

/-- `stopGateway()`: clear the manager's own references only, returning
the new state and the (empty) list of machine effects — in particular no
signal is ever sent to the child process. -/
def stopGateway (s : GatewayState) : GatewayState × List GwEffect :=
  ({ s with gatewayProcess := none, isReady := false, isStarting := false }, [])

/-- `startGatewayAsync()`: a no-op when a background startup handle is
already stored, otherwise store one. -/
def startGatewayAsync (s : GatewayState) : GatewayState :=
  match s.backgroundStartupPromise with
  | some _ => s
  | none => { s with backgroundStartupPromise := some () }

/-- `quickStartGateway()`, with the result of
`quickCheckExistingGateway()` (discovery with all errors caught to
`null`) supplied as `discovered`: adopt an existing gateway's port and
mark ready, or kick off the background startup. -/
def quickStartGateway (s : GatewayState) (discovered : Option Nat) : GatewayState :=
  match discovered with
  | some p => { s with currentPort := p, isReady := true }
  | none => startGatewayAsync s

/-- The two fixed stdout substrings whose appearance flips `isReady` in
the spawn's stdout handler. -/
def stdoutIndicatesReady (output : List Char) : Bool :=
  containsSub output "Server ready".toList || containsSub output "started on port".toList

/-- The `gatewayProcess.stdout.on('data', …)` handler: trim the chunk;
when it is non-empty and contains a readiness indicator, set `isReady`. -/
def onStdoutData (s : GatewayState) (data : String) : GatewayState :=
  let output := trimChars data.toList
  if output.isEmpty then s
  else if stdoutIndicatesReady output then { s with isReady := true }
  else s

/-- `waitForGateway()` loop with `health a` the outcome of the health
check on attempt number `a` (1-second interval in the source); `fuel` is
the number of attempts still permitted out of the 30 total. -/
def waitFrom (health : Nat → Bool) : Nat → Nat → Except GwError Unit
  | _, 0 => .error .gatewayStartupTimeout
  | a, fuel + 1 => if health a then .ok () else waitFrom health (a + 1) fuel

/-- `waitForGateway()`: up to 30 one-second health polls; the
`GatewayStartupTimeout` error models
`throw new Error('IB Gateway failed to start within 30 seconds')`. -/
def waitForGateway (health : Nat → Bool) : Except GwError Unit :=
  waitFrom health 0 30

/-- The tail of `startGatewayInternal` after the spawn: await
`waitForGateway`; on success set `isStarting=false, isReady=true`; the
surrounding `catch` sets `isStarting=false, isReady=false` and
rethrows. -/
def finishStartup (s : GatewayState) (health : Nat → Bool) :
    Except GwError Unit × GatewayState :=
  match waitForGateway health with
  | .ok _ => (.ok (), { s with isStarting := false, isReady := true })
  | .error e => (.error e, { s with isStarting := false, isReady := false })

/-- Result of the port-selection slice of `startGatewayInternal`:
the chosen `currentPort`, the port a temporary overlay config was
written for (if any), the `configFile` value, and the `--conf` argument
handed to the spawned process. -/
structure StartupPlan where
  currentPort : Nat
  tempConfigPort : Option Nat
  configFile : String
  confArg : String
deriving DecidableEq, Repr

/-- The port-selection and config-file slice of `startGatewayInternal`
(lines between the `isStarting` guard and the spawn): use the default
port 5000 when available; otherwise try `findAvailablePort(5001, 9)` and
write a temporary config for the found port; if that fails too, fall
back to the default port.  The config file is `root/conf.yaml` for the
default port and `root/conf-<port>.yaml` otherwise, and the process is
launched with `--conf ../<configFile>`. -/
def planStartup (avail : Nat → Bool) : StartupPlan :=
  let defaultPort := 5000
  let (port, tempPort) :=
    if avail defaultPort then (defaultPort, none)
    else
      match findAvailablePort avail 5001 9 with
      | .ok p => (p, some p)
      | .error _ => (defaultPort, none)
  let configFile :=
    if port = defaultPort then "root/conf.yaml"
    else "root/conf-" ++ Nat.repr port ++ ".yaml"
  { currentPort := port
    tempConfigPort := tempPort
    configFile := configFile
    confArg := "../" ++ configFile }

/-! ### Sequential model of `ensureGatewayReady` -/

/-- The observable stages `ensureGatewayReady` can go through, in
order. -/
inductive EnsureStep
  | discovery
  | awaitBackground
  | syncStart
deriving DecidableEq, Repr

/-- Environment of one `ensureGatewayReady` run: the discovery answer,
the outcome of awaiting the background startup promise (`Bool` payload:
the value of `this.isReady` right after the await resolves), and the
outcome of the final synchronous `startGatewayInternal` run. -/
structure EnsureEnv where
  discover : Option Nat
  bgOutcome : Except GwError Bool
  syncOutcome : Except GwError Unit

/-- Effect of a completed synchronous `startGatewayInternal` run on the
manager state: success leaves it started and ready; failure leaves both
flags reset (the `catch` of `startGatewayInternal`). -/
def applySyncOutcome (s : GatewayState) : Except GwError Unit → GatewayState
  | .ok _ => { s with isStarting := false, isReady := true, gatewayProcess := some () }
  | .error _ => { s with isStarting := false, isReady := false }

/-- `ensureGatewayReady()`, sequential model: result, final state and
the ordered list of stages that executed.  Mirrors the source order:
return if ready; re-run discovery and adopt a found port; await a stored
background startup, returning when it left the manager ready and
swallowing its error otherwise; finally run `startGatewayInternal`
synchronously and propagate exactly its outcome. -/
def ensureGatewayReady (s : GatewayState) (env : EnsureEnv) :
    Except GwError Unit × GatewayState × List EnsureStep :=
  if s.isReady then (.ok (), s, [])
  else
    match env.discover with
    | some p => (.ok (), { s with currentPort := p, isReady := true }, [.discovery])
    | none =>
      match s.backgroundStartupPromise with
      | some _ =>
        match env.bgOutcome with
        | .ok readyAfter =>
          if readyAfter then
            (.ok (), { s with isReady := true },
             [.discovery, .awaitBackground])
          else
            (env.syncOutcome.map fun _ => (),
             applySyncOutcome s env.syncOutcome,
             [.discovery, .awaitBackground, .syncStart])
        | .error _ =>
          (env.syncOutcome.map fun _ => (),
           applySyncOutcome { s with backgroundStartupPromise := none } env.syncOutcome,
           [.discovery, .awaitBackground, .syncStart])
      | none =>
        (env.syncOutcome.map fun _ => (),
         applySyncOutcome s env.syncOutcome,
         [.discovery, .syncStart])

/-! ### Interleaved model of concurrent `ensureGatewayReady` callers

JavaScript event-loop semantics: each caller is a task; code between two
`await`s runs atomically; the scheduler interleaves tasks at `await`
boundaries only.  Each task's environment answers (its discovery result,
whether the installation/runtime checks pass, the port answers, whether
its readiness wait succeeds) are fixed per task in a `TaskOracle`. -/

/-- Per-task answers of the environment for one `ensureGatewayReady`
caller. -/
structure TaskOracle where
  discover : Option Nat
  gwExists : Bool
  runtimeFound : Bool
  defaultFree : Bool
  altPort : Option Nat
  waitOk : Bool
deriving DecidableEq, Repr

/-- Program counter of one `ensureGatewayReady` caller.  `start` is the
synchronous prologue (the `isReady` fast path); `discovering` is the
suspension at the discovery await — on resume, when nothing was found
and no background handle exists, the task synchronously runs the
`startGatewayInternal` guard (`if (isStarting || isReady) return` then
`isStarting = true`) in the same segment; the remaining phases are the
suspensions inside `startGatewayInternal` (installation check, default
port probe, alternate-port search plus overlay write, the segment that
performs the spawn, and the readiness wait). -/
inductive TaskPhase
  | start
  | discovering
  | checkingExists
  | checkingPort
  | findingAlt
  | spawning
  | waiting
  | doneOk
  | doneErr
deriving DecidableEq, Repr

/-- The shared manager fields the concurrent model tracks, plus a
running count of spawn effects. -/
structure SharedState where
  isStarting : Bool
  isReady : Bool
  currentPort : Nat
  procLive : Bool
  spawns : Nat
deriving DecidableEq, Repr

/-- Shared state of a freshly constructed manager. -/
def initShared : SharedState :=
  { isStarting := false, isReady := false, currentPort := 5000
    procLive := false, spawns := 0 }

/-- One atomic segment of one task: from its current suspension point to
the next `await` (or to completion). -/
def stepTask (o : TaskOracle) (s : SharedState) : TaskPhase → SharedState × TaskPhase
  | .start => if s.isReady then (s, .doneOk) else (s, .discovering)
  | .discovering =>
    match o.discover with
    | some p => ({ s with currentPort := p, isReady := true }, .doneOk)
    | none =>
      if s.isStarting || s.isReady then (s, .doneOk)
      else ({ s with isStarting := true }, .checkingExists)
  | .checkingExists =>
    if o.gwExists then (s, .checkingPort)
    else ({ s with isStarting := false, isReady := false }, .doneErr)
  | .checkingPort =>
    if o.defaultFree then ({ s with currentPort := 5000 }, .spawning)
    else (s, .findingAlt)
  | .findingAlt =>
    match o.altPort with
    | some p => ({ s with currentPort := p }, .spawning)
    | none => ({ s with currentPort := 5000 }, .spawning)
  | .spawning =>
    if o.runtimeFound then
      ({ s with procLive := true, spawns := s.spawns + 1 }, .waiting)
    else ({ s with isStarting := false, isReady := false }, .doneErr)
  | .waiting =>
    if o.waitOk then ({ s with isStarting := false, isReady := true }, .doneOk)
    else ({ s with isStarting := false, isReady := false }, .doneErr)
  | .doneOk => (s, .doneOk)
  | .doneErr => (s, .doneErr)

/-- A configuration: the shared manager state and every task's oracle
and phase. -/
structure SysConfig where
  shared : SharedState
  tasks : List (TaskOracle × TaskPhase)
deriving DecidableEq, Repr

/-- Run one atomic segment of task `i` (no-op for an out-of-range
index). -/
def stepCfg (c : SysConfig) (i : Nat) : SysConfig :=
  match c.tasks[i]? with
  | some (o, p) =>
    let sp := stepTask o c.shared p
    { shared := sp.1, tasks := c.tasks.set i (o, sp.2) }
  | none => c

/-- Run a whole schedule (a list of task indices, each naming whose
segment runs next). -/
def runSched (c : SysConfig) : List Nat → SysConfig
  | [] => c
  | i :: rest => runSched (stepCfg c i) rest

/-- Phases strictly inside `startGatewayInternal` (past the
`isStarting` guard, not yet returned). -/
def activeP : TaskPhase → Bool
  | .checkingExists => true
  | .checkingPort => true
  | .findingAlt => true
  | .spawning => true
  | .waiting => true
  | _ => false

/-- An oracle under which nothing fails and no existing gateway is
discovered: the hypotheses of the at-most-one-spawn property. -/
@[reducible] def goodOracle (o : TaskOracle) : Prop :=
  o.discover = none ∧ o.gwExists = true ∧ o.runtimeFound = true ∧ o.waitOk = true

/-- No task is inside `startGatewayInternal`. -/
def NoActive (c : SysConfig) : Prop :=
  ∀ j, (hj : j < c.tasks.length) → activeP (c.tasks[j]).2 = false

/-- Inductive invariant of the concurrent system under `goodOracle`
tasks: either nobody is inside `startGatewayInternal` and nothing was
spawned; or exactly one task is inside it (`isStarting` is set) and the
spawn count is 1 exactly when that task has passed its spawn segment; or
a startup completed (`isReady`), everyone is outside, and at most one
spawn happened. -/
def SysInv (c : SysConfig) : Prop :=
  (c.shared.isStarting = false ∧ c.shared.isReady = false ∧
    c.shared.spawns = 0 ∧ NoActive c) ∨
  (c.shared.isStarting = true ∧ c.shared.isReady = false ∧
    ∃ j, ∃ hj : j < c.tasks.length,
      activeP (c.tasks[j]).2 = true ∧
      (∀ k, (hk : k < c.tasks.length) → k ≠ j →
        activeP (c.tasks[k]).2 = false) ∧
      c.shared.spawns = (if (c.tasks[j]).2 = TaskPhase.waiting then 1 else 0)) ∨
  (c.shared.isStarting = false ∧ c.shared.isReady = true ∧
    c.shared.spawns ≤ 1 ∧ NoActive c)

/-! ### External mode (not present in `src/`)

`setExternalMode` and the external-mode branches are referenced by
`test/external-gateway.test.ts` and by the tool-handler layer but the
`gateway-manager.ts` under `src/` does not contain them; they are
modelled from the spec here. -/

/-- Modelled from the spec: the external-mode configuration fields of
the manager (`setExternalMode(host, port)` stores a remote host/port;
the mode is fixed thereafter).  Missing from `src/gateway-manager.ts`;
exercised by `test/external-gateway.test.ts`. -/
structure ExtManager where
  externalHost : Option String := none
  externalPort : Nat := 5000
  isReady : Bool := false
deriving DecidableEq, Repr

/-- Modelled from the spec: `setExternalMode(host, port)` configures the
manager with a remote host and port instead of a managed local
process. -/
def setExternalMode (m : ExtManager) (host : String) (port : Nat) : ExtManager :=
  { m with externalHost := some host, externalPort := port }

/-- Modelled from the spec: `quickStartGateway()` in the presence of the
external-mode branch.  In external mode it performs exactly one health
probe against the configured host and port and never touches the Port
Prober or the Launcher; an unsuccessful probe is fatal
(`ExternalGatewayUnreachable`), with no retry and no local fallback.
Outside external mode it follows the local discovery path (summarised
here as its discovery probe effect). -/
def quickStartGatewayExt (m : ExtManager) (healthOk : Bool) :
    Except GwError ExtManager × List GwEffect :=
  match m.externalHost with
  | some h =>
    if healthOk then (.ok { m with isReady := true }, [.healthProbe h m.externalPort])
    else (.error .externalGatewayUnreachable, [.healthProbe h m.externalPort])
  | none => (.ok m, [.discoveryProbe])

/-! ### Concrete oracle instances used by witnesses and counterexamples -/

/-- Oracle reporting every port occupied except 5004. -/
def availOnly5004 : Nat → Bool := fun p => decide (p = 5004)

/-- Oracle reporting only port 5001 available. -/
def availOnly5001 : Nat → Bool := fun p => decide (p = 5001)

/-- Oracle reporting every port free except 5003. -/
def availAllBut5003 : Nat → Bool := fun q => decide (q ≠ 5003)

/-- Oracle reporting every port free except 6000. -/
def availAllBut6000 : Nat → Bool := fun q => decide (q ≠ 6000)

/-- Process listing that names the Java gateway process. -/
def listingJava : Nat → Option String := fun _ => some "Java -jar ClientPortal"

/-- Health-check oracle succeeding on the fourth attempt. -/
def healthAt3 : Nat → Bool := fun i => decide (i = 3)

/-- A representative `conf.yaml` content. -/
def confSample : String :=
  "ip2loc: US\nproxyRemoteSsl: true\nlistenPort: 5000\nlistenSsl: true\n"

/-- `confSample` with the listen port replaced by 5001. -/
def confSample5001 : String :=
  "ip2loc: US\nproxyRemoteSsl: true\nlistenPort: 5001\nlistenSsl: true\n"

/-- A manager state with a stored background startup handle. -/
def stateWithBg : GatewayState :=
  { initialState with backgroundStartupPromise := some () }

/-- An `ensureGatewayReady` environment: discovery finds nothing, the
awaited background startup fails, the synchronous startup succeeds. -/
def envBgFails : EnsureEnv :=
  { discover := none
    bgOutcome := .error .gatewayStartupTimeout
    syncOutcome := .ok () }

/-- A task oracle under which nothing fails and discovery finds no
gateway. -/
def oracleGood : TaskOracle :=
  { discover := none, gwExists := true, runtimeFound := true
    defaultFree := true, altPort := none, waitOk := true }

/-- Like `oracleGood` but the readiness wait times out. -/
def oracleWaitFails : TaskOracle :=
  { oracleGood with waitOk := false }

/-- Two concurrent `ensureGatewayReady` callers, the first one's
readiness wait failing. -/
def cfgFailThenRetry : SysConfig :=
  { shared := initShared
    tasks := [(oracleWaitFails, .start), (oracleGood, .start)] }

/-- Two concurrent `ensureGatewayReady` callers, nothing failing. -/
def cfgTwoGood : SysConfig :=
  { shared := initShared
    tasks := [(oracleGood, .start), (oracleGood, .start)] }

/-- An interleaving of `cfgFailThenRetry`: both callers run discovery
concurrently, the first passes the guard, spawns and times out, then the
second resumes, passes the freshly reset guard and spawns again. -/
def schedFailThenRetry : List Nat :=
  [0, 1, 0, 0, 0, 0, 0, 1, 1, 1, 1]

/-! ## Theorems -/

/-! ### Helper lemmas -/

theorem findAvailablePortFrom_succ (avail : Nat → Bool) (p k : Nat) :
    findAvailablePortFrom avail p (k + 1)
      = if avail p then some p else findAvailablePortFrom avail (p + 1) k := rfl

theorem findAvailablePortFrom_eq_none_iff (avail : Nat → Bool) :
    ∀ (k p : Nat), findAvailablePortFrom avail p k = none ↔
      ∀ i, i < k → avail (p + i) = false := by
  intro k
  induction k with
  | zero => intro p; simp [findAvailablePortFrom]
  | succ k ih =>
    intro p
    rw [findAvailablePortFrom_succ]
    by_cases h : avail p
    · simp only [h, if_true]
      constructor
      · intro hc; cases hc
      · intro hall
        have := hall 0 (by omega)
        simp [h] at this
    · have h' : avail p = false := by simpa using h
      simp only [h', Bool.false_eq_true, if_false]
      rw [ih (p + 1)]
      constructor
      · intro hall i hi
        cases i with
        | zero => simpa using h'
        | succ j =>
          have e : p + (j + 1) = p + 1 + j := by omega
          rw [e]
          exact hall j (by omega)
      · intro hall i hi
        have e : p + 1 + i = p + (i + 1) := by omega
        rw [e]
        exact hall (i + 1) (by omega)

theorem findAvailablePortFrom_eq_some (avail : Nat → Bool) :
    ∀ (k p q : Nat), findAvailablePortFrom avail p k = some q →
      p ≤ q ∧ q < p + k ∧ avail q = true ∧
      ∀ r, p ≤ r → r < q → avail r = false := by
  intro k
  induction k with
  | zero => intro p q h; simp [findAvailablePortFrom] at h
  | succ k ih =>
    intro p q h
    rw [findAvailablePortFrom_succ] at h
    by_cases hp : avail p
    · simp only [hp, if_true, Option.some.injEq] at h
      subst h
      exact ⟨Nat.le_refl _, by omega, hp, fun r h1 h2 => by omega⟩
    · have hp' : avail p = false := by simpa using hp
      simp only [hp', Bool.false_eq_true, if_false] at h
      obtain ⟨h1, h2, h3, h4⟩ := ih (p + 1) q h
      refine ⟨by omega, by omega, h3, ?_⟩
      intro r hr1 hr2
      rcases Nat.eq_or_lt_of_le hr1 with rfl | hlt
      · simpa using hp
      · exact h4 r (by omega) hr2

theorem findExistingGatewayAux_eq_none (avail : Nat → Bool)
    (listing : Nat → Option String) :
    ∀ l, (∀ p ∈ l, avail p = true ∨ isGatewayProcess (listing p) = false) →
      findExistingGatewayAux avail listing l = none := by
  intro l
  induction l with
  | nil => intro _; rfl
  | cons p rest ih =>
    intro h
    have hrest := fun q hq => h q (List.mem_cons_of_mem _ hq)
    rcases h p (List.mem_cons_self _ _) with hp | hp
    · simp only [findExistingGatewayAux, hp, if_true]
      exact ih hrest
    · by_cases ha : avail p
      · simp only [findExistingGatewayAux, ha, if_true]
        exact ih hrest
      · simp only [findExistingGatewayAux, ha, if_false, Bool.false_eq_true, hp]
        exact ih hrest

theorem findExistingGatewayAux_eq_some (avail : Nat → Bool)
    (listing : Nat → Option String) :
    ∀ l (P : Nat), P ∈ l → avail P = false →
      isGatewayProcess (listing P) = true →
      (∀ q ∈ l, q ≠ P → avail q = true) →
      findExistingGatewayAux avail listing l = some P := by
  intro l
  induction l with
  | nil => intro P hmem; cases hmem
  | cons p rest ih =>
    intro P hmem hPa hPg hOnly
    by_cases hpP : p = P
    · subst hpP
      simp [findExistingGatewayAux, hPa, hPg]
    · have hav : avail p = true := hOnly p (List.mem_cons_self _ _) hpP
      simp only [findExistingGatewayAux, hav, if_true]
      have hmem' : P ∈ rest := by
        cases hmem with
        | head => exact absurd rfl hpP
        | tail _ h => exact h
      exact ih P hmem' hPa hPg (fun q hq hne => hOnly q (List.mem_cons_of_mem _ hq) hne)

theorem waitFrom_ok_iff (health : Nat → Bool) :
    ∀ (fuel a : Nat), waitFrom health a fuel = .ok () ↔
      ∃ i, i < fuel ∧ health (a + i) = true := by
  intro fuel
  induction fuel with
  | zero => intro a; simp [waitFrom]
  | succ fuel ih =>
    intro a
    show (if health a then Except.ok () else waitFrom health (a + 1) fuel) = .ok () ↔ _
    by_cases h : health a
    · simp only [h, if_true]
      constructor
      · intro _; exact ⟨0, by omega, by simpa using h⟩
      · intro _; trivial
    · have h' : health a = false := by simpa using h
      simp only [h', Bool.false_eq_true, if_false]
      rw [ih (a + 1)]
      constructor
      · intro ⟨i, hi, hh⟩
        refine ⟨i + 1, by omega, ?_⟩
        have e : a + (i + 1) = a + 1 + i := by omega
        rw [e]; exact hh
      · intro ⟨i, hi, hh⟩
        cases i with
        | zero => simp [h'] at hh
        | succ j =>
          refine ⟨j, by omega, ?_⟩
          have e : a + 1 + j = a + (j + 1) := by omega
          rw [e]; exact hh

theorem waitFrom_error_iff (health : Nat → Bool) :
    ∀ (fuel a : Nat), waitFrom health a fuel = .error .gatewayStartupTimeout ↔
      ∀ i, i < fuel → health (a + i) = false := by
  intro fuel
  induction fuel with
  | zero => intro a; simp [waitFrom]
  | succ fuel ih =>
    intro a
    show (if health a then Except.ok () else waitFrom health (a + 1) fuel)
        = .error .gatewayStartupTimeout ↔ _
    by_cases h : health a
    · simp only [h, if_true]
      constructor
      · intro hc; cases hc
      · intro hall
        have := hall 0 (by omega)
        simp [h] at this
    · have h' : health a = false := by simpa using h
      simp only [h', Bool.false_eq_true, if_false]
      rw [ih (a + 1)]
      constructor
      · intro hall i hi
        cases i with
        | zero => simpa using h'
        | succ j =>
          have e : a + (j + 1) = a + 1 + j := by omega
          rw [e]
          exact hall j (by omega)
      · intro hall i hi
        have e : a + 1 + i = a + (i + 1) := by omega
        rw [e]
        exact hall (i + 1) (by omega)

/-! ### Claim theorems -/

/-- C8: `findAvailablePort(5001, 9)` fails with `NoAvailablePortsFound`
if and only if every port in 5001..5009 is reported occupied by
`isPortAvailable`; otherwise it returns the lowest port in 5001..5009
that `isPortAvailable` reports free. -/
theorem C8_findAvailablePort_range (avail : Nat → Bool) :
    (findAvailablePort avail 5001 9 = .error .noAvailablePortsFound ↔
      ∀ p, 5001 ≤ p → p ≤ 5009 → avail p = false) ∧
    (∀ q, findAvailablePort avail 5001 9 = .ok q →
      5001 ≤ q ∧ q ≤ 5009 ∧ avail q = true ∧
      ∀ r, 5001 ≤ r → r < q → avail r = false) := by
  constructor
  · cases hF : findAvailablePortFrom avail 5001 9 with
    | some p =>
      simp only [findAvailablePort, hF]
      constructor
      · intro hc; cases hc
      · intro hall
        obtain ⟨h1, h2, h3, _⟩ := findAvailablePortFrom_eq_some avail 9 5001 p hF
        have := hall p (by omega) (by omega)
        rw [this] at h3
        cases h3
    | none =>
      simp only [findAvailablePort, hF]
      constructor
      · intro _ p h1 h2
        have hh := (findAvailablePortFrom_eq_none_iff avail 9 5001).mp hF
        have hh2 := hh (p - 5001) (by omega)
        have e : 5001 + (p - 5001) = p := by omega
        exact e ▸ hh2
      · intro _; trivial
  · intro q hq
    cases hF : findAvailablePortFrom avail 5001 9 with
    | some p =>
      simp only [findAvailablePort, hF, Except.ok.injEq] at hq
      subst hq
      obtain ⟨h1, h2, h3, h4⟩ := findAvailablePortFrom_eq_some avail 9 5001 p hF
      exact ⟨h1, by omega, h3, h4⟩
    | none =>
      simp only [findAvailablePort, hF] at hq
      cases hq

/-- C8 witness: with only port 5004 free, `findAvailablePort(5001, 9)`
returns 5004 and the theorem reports it as an available port. -/
theorem C8_witness : availOnly5004 5004 = true :=
  ((C8_findAvailablePort_range availOnly5004).2 5004 (by decide)).2.2.1

/-- C9 (amended): with exactly one port P occupied among all ports, if P
is one of the scanned conventional ports 5000..5005 and its listing text
contains a gateway indicator then `findExistingGateway()` returns P; and
whenever P's listing lacks all indicators, `findExistingGateway()`
returns null. -/
theorem C9_findExistingGateway (avail : Nat → Bool) (listing : Nat → Option String)
    (P : Nat) (hP : avail P = false) (hOnly : ∀ q, q ≠ P → avail q = true) :
    (P ∈ commonPorts → isGatewayProcess (listing P) = true →
      findExistingGateway avail listing = some P) ∧
    (isGatewayProcess (listing P) = false →
      findExistingGateway avail listing = none) := by
  constructor
  · intro hmem hg
    exact findExistingGatewayAux_eq_some avail listing commonPorts P hmem hP hg
      (fun q _ hne => hOnly q hne)
  · intro hg
    apply findExistingGatewayAux_eq_none
    intro p hp
    by_cases hpP : p = P
    · subst hpP; right; exact hg
    · left; exact hOnly p hpP

/-- C9 witness: only port 5003 occupied, by a process whose listing says
`Java -jar ClientPortal`: discovery returns 5003. -/
theorem C9_witness : findExistingGateway availAllBut5003 listingJava = some 5003 :=
  (C9_findExistingGateway availAllBut5003 listingJava 5003 (by decide)
    (fun q hq => by simp [availAllBut5003]; exact hq)).1 (by decide) (by decide)

/-- C9 counterexample: the claim quantifies over every port P, but
`findExistingGateway` only scans 5000..5005; with only port 6000
occupied by a process listing the indicator `java`, it returns null, not
6000. -/
theorem C9_counterexample :
    ¬ (∀ (avail : Nat → Bool) (listing : Nat → Option String) (P : Nat),
        avail P = false → (∀ q, q ≠ P → avail q = true) →
        isGatewayProcess (listing P) = true →
        findExistingGateway avail listing = some P) := by
  intro h
  have h6 := h availAllBut6000 listingJava 6000 (by decide)
    (fun q hq => by simp [availAllBut6000]; exact hq) (by decide)
  exact absurd h6 (by decide)

/-- C10: in every manager state, `getGatewayUrl()` is exactly the
string `https://localhost:` followed by the decimal rendering of
`getCurrentPort()`, and it is unaffected by every field other than the
current port (process handle, flags, background handle), so the host
component is always `localhost` no matter how the port was obtained. -/
theorem C10_getGatewayUrl (s : GatewayState) (proc bg : Option Unit)
    (st rd : Bool) (dir jre : String) (stderr clean : Bool) :
    getGatewayUrl s = "https://localhost:" ++ Nat.repr (getCurrentPort s) ∧
    getGatewayUrl (GatewayState.mk proc dir jre st rd stderr clean s.currentPort bg)
      = getGatewayUrl s := ⟨rfl, rfl⟩

/-- C6: `stopGateway()` emits no machine effect at all — in particular
no kill signal — and produces the state with `processHandle` cleared and
`isReady`/`isStarting` false while every other field, in particular
`currentPort`, is unchanged; afterwards `isGatewayReady()` is false. -/
theorem C6_stopGateway (s : GatewayState) :
    (stopGateway s).2 = ([] : List GwEffect) ∧
    ((stopGateway s).2.contains GwEffect.killProcess) = false ∧
    (stopGateway s).1.gatewayProcess = none ∧
    (stopGateway s).1.isReady = false ∧
    (stopGateway s).1.isStarting = false ∧
    (stopGateway s).1.currentPort = s.currentPort ∧
    (stopGateway s).1.backgroundStartupPromise = s.backgroundStartupPromise ∧
    (stopGateway s).1.gatewayDir = s.gatewayDir ∧
    (stopGateway s).1.jreDir = s.jreDir ∧
    (stopGateway s).1.useStderr = s.useStderr ∧
    (stopGateway s).1.cleanupHandlersRegistered = s.cleanupHandlersRegistered ∧
    isGatewayReady (stopGateway s).1 = false :=
  ⟨rfl, rfl, rfl, rfl, rfl, rfl, rfl, rfl, rfl, rfl, rfl, rfl⟩

/-- C4 (amended): when `quickStartGateway()` discovers an existing
gateway on port P it adopts the port (`getCurrentPort() = P`), sets the
`isReady` flag, and leaves the background startup handle untouched (it
stays null); `isGatewayReady()`, however, equals the presence of a local
process handle, so it is false on a fresh manager because adoption never
sets `gatewayProcess`. -/
theorem C4_quickStart_adopt (s : GatewayState) (P : Nat) :
    getCurrentPort (quickStartGateway s (some P)) = P ∧
    (quickStartGateway s (some P)).isReady = true ∧
    (quickStartGateway s (some P)).backgroundStartupPromise
      = s.backgroundStartupPromise ∧
    isGatewayReady (quickStartGateway s (some P))
      = Option.isSome s.gatewayProcess := by
  refine ⟨rfl, rfl, rfl, ?_⟩
  simp [quickStartGateway, isGatewayReady]

/-- C4 counterexample: a fresh manager whose discovery finds a gateway
on port 5002 adopts the port and sets `isReady`, yet `isGatewayReady()`
returns false (no process handle was ever stored), contradicting the
claim that the manager is ready in the `isGatewayReady()` sense. -/
theorem C4_counterexample :
    getCurrentPort (quickStartGateway initialState (some 5002)) = 5002 ∧
    (quickStartGateway initialState (some 5002)).isReady = true ∧
    (quickStartGateway initialState (some 5002)).backgroundStartupPromise = none ∧
    isGatewayReady (quickStartGateway initialState (some 5002)) = false :=
  ⟨rfl, rfl, rfl, rfl⟩

/-- C3: after `setExternalMode(host, port)`, `quickStartGateway()`
performs exactly one health probe against the configured host and port
— never a port probe, never a spawn — and returns
`ExternalGatewayUnreachable` exactly when the probe does not succeed,
with no retry and no local fallback. -/
theorem C3_externalMode (m : ExtManager) (host : String) (port : Nat)
    (healthOk : Bool) :
    (quickStartGatewayExt (setExternalMode m host port) healthOk).2
      = [GwEffect.healthProbe host port] ∧
    (quickStartGatewayExt (setExternalMode m host port) healthOk).1
      = (if healthOk
         then .ok (ExtManager.mk (some host) port true)
         else .error .externalGatewayUnreachable) := by
  cases healthOk <;> simp [quickStartGatewayExt, setExternalMode]

/-- C7: with the default port 5000 occupied and 5001 free,
`startGatewayInternal` selects `currentPort = 5001`, writes the overlay
config for 5001 (file `conf-5001.yaml`, content equal to the original
with its `listenPort` value replaced by 5001) and launches with config
filename `root/conf-5001.yaml` (argument `--conf ../root/conf-5001.yaml`). -/
theorem C7_altPortConfig (avail : Nat → Bool)
    (h0 : avail 5000 = false) (h1 : avail 5001 = true) :
    planStartup avail
      = { currentPort := 5001, tempConfigPort := some 5001,
          configFile := "root/conf-5001.yaml",
          confArg := "../root/conf-5001.yaml" } ∧
    createTempConfigWithPort confSample 5001
      = ("clientportal.gw/root/conf-5001.yaml", confSample5001) := by
  constructor
  · have hf : findAvailablePort avail 5001 9 = .ok 5001 := by
      show (match findAvailablePortFrom avail 5001 (8 + 1) with
            | some p => Except.ok p
            | none => Except.error GwError.noAvailablePortsFound) = .ok 5001
      rw [findAvailablePortFrom_succ, h1]
      simp
    simp only [planStartup, h0, Bool.false_eq_true, if_false, hf]
    decide
  · decide

/-- C7 witness: the oracle reporting only 5001 free satisfies the
hypotheses, and the plan picks 5001 with the overlay config. -/
theorem C7_witness :
    (planStartup availOnly5001).currentPort = 5001 ∧
    (planStartup availOnly5001).configFile = "root/conf-5001.yaml" := by
  have h := (C7_altPortConfig availOnly5001 (by decide) (by decide)).1
  rw [h]
  exact ⟨rfl, rfl⟩

/-- C5 (amended): a launch's readiness wait succeeds exactly when the
1-second-interval, 30-attempt polling health check succeeds at some
attempt; the stdout log-line match sets the `isReady` flag but does not
satisfy or shorten the wait; the launch fails with
`GatewayStartupTimeout` if and only if no health poll succeeds within
the attempt budget, and on that failure the manager resets `isStarting`
and `isReady` to false before rethrowing. -/
theorem C5_readinessWait (s : GatewayState) (health : Nat → Bool) (data : String) :
    (waitForGateway health = .ok () ↔ ∃ i, i < 30 ∧ health i = true) ∧
    (waitForGateway health = .error .gatewayStartupTimeout ↔
      ∀ i, i < 30 → health i = false) ∧
    ((onStdoutData s data).isReady
      = (s.isReady
         || (!(trimChars data.toList).isEmpty
             && stdoutIndicatesReady (trimChars data.toList)))) ∧
    ((∀ i, i < 30 → health i = false) →
      finishStartup s health
        = (.error .gatewayStartupTimeout,
           { s with isStarting := false, isReady := false })) ∧
    ((∃ i, i < 30 ∧ health i = true) →
      finishStartup s health
        = (.ok (), { s with isStarting := false, isReady := true })) := by
  have hok := waitFrom_ok_iff health 30 0
  have herr := waitFrom_error_iff health 30 0
  simp only [Nat.zero_add] at hok herr
  have key : ∀ out : List Char,
      (if out.isEmpty then s
       else if stdoutIndicatesReady out then { s with isReady := true }
       else s).isReady
        = (s.isReady || (!out.isEmpty && stdoutIndicatesReady out)) := by
    intro out
    by_cases h1 : out.isEmpty <;> by_cases h2 : stdoutIndicatesReady out <;>
      simp [h1, h2]
  refine ⟨hok, herr, key (trimChars data.toList), ?_, ?_⟩
  · intro hall
    have hE : waitForGateway health = .error .gatewayStartupTimeout :=
      herr.mpr hall
    unfold finishStartup
    rw [hE]
  · intro hex
    have hE : waitForGateway health = .ok () := hok.mpr hex
    unfold finishStartup
    rw [hE]

/-- C5 witness: with the health check succeeding on attempt 3, the
startup tail returns success and sets the started/ready flags. -/
theorem C5_witness :
    finishStartup initialState healthAt3
      = (.ok (), { initialState with isStarting := false, isReady := true }) :=
  (C5_readinessWait initialState healthAt3 "x").2.2.2.2 ⟨3, by decide, by decide⟩

/-- C5 counterexample: the claim says the readiness wait succeeds as
soon as either signal fires, but the code's `waitForGateway` consults
only the health check: with the stdout readiness line received (which
does flip `isReady`) and the health check never succeeding, the wait
still fails. -/
theorem C5_counterexample :
    ¬ (∀ (s : GatewayState) (data : String) (health : Nat → Bool),
        ((onStdoutData s data).isReady = true ∨ ∃ i, i < 30 ∧ health i = true) →
        waitForGateway health = .ok ()) := by
  intro h
  have hw := h initialState "Server ready" (fun _ => false) (Or.inl (by decide))
  exact absurd hw (by decide)

/-- C2: `ensureGatewayReady()` returns at once with no action when
already ready; otherwise it re-runs discovery and on success adopts the
port and stops there; otherwise, with a stored background handle, it
awaits it and returns when that startup left the manager ready, while a
background failure is swallowed and followed by the synchronous startup;
and any error it ever returns is exactly the synchronous startup's
error, from a run whose trace ends in the synchronous start. -/
theorem C2_ensureOrder (s : GatewayState) (env : EnsureEnv) :
    (s.isReady = true → ensureGatewayReady s env = (.ok (), s, [])) ∧
    (s.isReady = false → ∀ p, env.discover = some p →
      ensureGatewayReady s env
        = (.ok (), { s with currentPort := p, isReady := true },
           [.discovery])) ∧
    (s.isReady = false → env.discover = none →
      s.backgroundStartupPromise = some () → env.bgOutcome = .ok true →
      ensureGatewayReady s env
        = (.ok (), { s with isReady := true },
           [.discovery, .awaitBackground])) ∧
    (s.isReady = false → env.discover = none →
      s.backgroundStartupPromise = some () →
      (∀ e, env.bgOutcome = .error e →
        (ensureGatewayReady s env).1 = env.syncOutcome.map (fun _ => ()) ∧
        (ensureGatewayReady s env).2.2
          = [.discovery, .awaitBackground, .syncStart])) ∧
    (∀ e, (ensureGatewayReady s env).1 = .error e →
      env.syncOutcome = .error e ∧
      EnsureStep.syncStart ∈ (ensureGatewayReady s env).2.2) := by
  refine ⟨?_, ?_, ?_, ?_, ?_⟩
  · intro hr
    simp [ensureGatewayReady, hr]
  · intro hr p hd
    simp [ensureGatewayReady, hr, hd]
  · intro hr hd hbg hout
    simp [ensureGatewayReady, hr, hd, hbg, hout]
  · intro hr hd hbg e hout
    simp [ensureGatewayReady, hr, hd, hbg, hout]
  · intro e he
    cases hr : s.isReady with
    | true => simp [ensureGatewayReady, hr] at he
    | false =>
      cases hd : env.discover with
      | some p => simp [ensureGatewayReady, hr, hd] at he
      | none =>
        cases hbg : s.backgroundStartupPromise with
        | some u =>
          cases hout : env.bgOutcome with
          | ok readyAfter =>
            cases readyAfter with
            | true => simp [ensureGatewayReady, hr, hd, hbg, hout] at he
            | false =>
              simp only [ensureGatewayReady, hr, hd, hbg, hout,
                Bool.false_eq_true, if_false] at he ⊢
              cases hsync : env.syncOutcome with
              | ok u2 => rw [hsync] at he; cases he
              | error e2 =>
                rw [hsync] at he
                cases he
                exact ⟨rfl, by simp [ensureGatewayReady, hr, hd, hbg, hout]⟩
          | error e2 =>
            simp only [ensureGatewayReady, hr, hd, hbg, hout] at he ⊢
            cases hsync : env.syncOutcome with
            | ok u2 => rw [hsync] at he; cases he
            | error e3 =>
              rw [hsync] at he
              cases he
              exact ⟨rfl, by simp [ensureGatewayReady, hr, hd, hbg, hout]⟩
        | none =>
          simp only [ensureGatewayReady, hr, hd, hbg] at he ⊢
          cases hsync : env.syncOutcome with
          | ok u2 => rw [hsync] at he; cases he
          | error e2 =>
            rw [hsync] at he
            cases he
            exact ⟨rfl, by simp [ensureGatewayReady, hr, hd, hbg]⟩

/-- C2 witness: manager not ready, discovery finds nothing, stored
background startup fails with a timeout, synchronous startup succeeds:
the call returns success (the background failure was swallowed) and its
trace is discovery, background await, synchronous start. -/
theorem C2_witness :
    (ensureGatewayReady stateWithBg envBgFails).1 = .ok () ∧
    (ensureGatewayReady stateWithBg envBgFails).2.2
      = [.discovery, .awaitBackground, .syncStart] := by
  have h := (C2_ensureOrder stateWithBg envBgFails).2.2.2.1 rfl rfl rfl
    .gatewayStartupTimeout rfl
  exact ⟨h.1.trans rfl, h.2⟩

theorem noActive_set (c : SysConfig) (sh : SharedState) (i : Nat)
    (a : TaskOracle × TaskPhase) (ha : activeP a.2 = false)
    (h : ∀ j, (hj : j < c.tasks.length) → j ≠ i → activeP (c.tasks[j]).2 = false) :
    NoActive { shared := sh, tasks := c.tasks.set i a } := by
  intro j hj
  have hj' : j < c.tasks.length := by simpa using hj
  show activeP ((c.tasks.set i a)[j]).2 = false
  rw [List.getElem_set]
  by_cases hij : i = j
  · rw [if_pos hij]; exact ha
  · rw [if_neg hij]; exact h j hj' (fun hh => hij hh.symm)

theorem invB_exists (c : SysConfig) (sh : SharedState) (i : Nat)
    (hi : i < c.tasks.length) (a : TaskOracle × TaskPhase)
    (ha : activeP a.2 = true)
    (hU : ∀ k, (hk : k < c.tasks.length) → k ≠ i → activeP (c.tasks[k]).2 = false)
    (hs : sh.spawns = if a.2 = TaskPhase.waiting then 1 else 0) :
    ∃ j, ∃ hj : j < (c.tasks.set i a).length,
      activeP ((c.tasks.set i a)[j]).2 = true ∧
      (∀ k, (hk : k < (c.tasks.set i a).length) → k ≠ j →
        activeP ((c.tasks.set i a)[k]).2 = false) ∧
      sh.spawns = (if ((c.tasks.set i a)[j]).2 = TaskPhase.waiting then 1 else 0) := by
  have hi' : i < (c.tasks.set i a).length := by simpa using hi
  refine ⟨i, hi', ?_, ?_, ?_⟩
  · rw [List.getElem_set, if_pos rfl]; exact ha
  · intro k hk hki
    have hk' : k < c.tasks.length := by simpa using hk
    rw [List.getElem_set]
    by_cases hik : i = k
    · exact absurd hik.symm hki
    · rw [if_neg hik]; exact hU k hk' (fun hh => hik hh.symm)
  · rw [List.getElem_set, if_pos rfl]; exact hs

theorem invB_keep (c : SysConfig) (sh : SharedState) (i j : Nat)
    (hj : j < c.tasks.length) (hij : i ≠ j) (a : TaskOracle × TaskPhase)
    (ha : activeP a.2 = false)
    (hact : activeP (c.tasks[j]).2 = true)
    (hU : ∀ k, (hk : k < c.tasks.length) → k ≠ j → activeP (c.tasks[k]).2 = false)
    (hs : sh.spawns = if (c.tasks[j]).2 = TaskPhase.waiting then 1 else 0) :
    ∃ j2, ∃ hj2 : j2 < (c.tasks.set i a).length,
      activeP ((c.tasks.set i a)[j2]).2 = true ∧
      (∀ k, (hk : k < (c.tasks.set i a).length) → k ≠ j2 →
        activeP ((c.tasks.set i a)[k]).2 = false) ∧
      sh.spawns = (if ((c.tasks.set i a)[j2]).2 = TaskPhase.waiting then 1 else 0) := by
  have hj' : j < (c.tasks.set i a).length := by simpa using hj
  refine ⟨j, hj', ?_, ?_, ?_⟩
  · rw [List.getElem_set, if_neg hij]; exact hact
  · intro k hk hkj
    have hk' : k < c.tasks.length := by simpa using hk
    rw [List.getElem_set]
    by_cases hik : i = k
    · rw [if_pos hik]; exact ha
    · rw [if_neg hik]; exact hU k hk' hkj
  · rw [List.getElem_set, if_neg hij]; exact hs

theorem sysInv_preserved (c : SysConfig) (i : Nat)
    (hg : ∀ t ∈ c.tasks, goodOracle t.1) (hInv : SysInv c) :
    SysInv (stepCfg c i) := by
  cases hti : c.tasks[i]? with
  | none =>
    simpa only [stepCfg, hti] using hInv
  | some op =>
    obtain ⟨o, p⟩ := op
    obtain ⟨hi, hgeti⟩ := List.getElem?_eq_some_iff.mp hti
    have hmem : (o, p) ∈ c.tasks := by rw [← hgeti]; exact List.getElem_mem hi
    obtain ⟨hd0, he0, hrf0, hw0⟩ := hg (o, p) hmem
    have hd : o.discover = none := hd0
    have he : o.gwExists = true := he0
    have hrf : o.runtimeFound = true := hrf0
    have hw : o.waitOk = true := hw0
    simp only [stepCfg, hti]
    rcases hInv with ⟨hA1, hA2, hA3, hA4⟩ | ⟨hB1, hB2, j, hj, hact, huniq, hsp⟩ |
      ⟨hC1, hC2, hC3, hC4⟩
    · -- idle: nobody active, nothing spawned
      have hpin : activeP p = false := by
        have hx := hA4 i hi; rw [hgeti] at hx; exact hx
      cases p with
      | start =>
        simp only [stepTask, hA2, Bool.false_eq_true, if_false]
        exact Or.inl ⟨hA1, hA2, hA3,
          noActive_set c c.shared i (o, .discovering) rfl (fun k hk _ => hA4 k hk)⟩
      | discovering =>
        have hguard : (c.shared.isStarting || c.shared.isReady) = false := by
          rw [hA1, hA2]; rfl
        simp only [stepTask, hd, hguard, Bool.false_eq_true, if_false]
        refine Or.inr (Or.inl ⟨rfl, hA2, ?_⟩)
        exact invB_exists c { c.shared with isStarting := true } i hi
          (o, .checkingExists) rfl (fun k hk hki => hA4 k hk) (by simp [hA3])
      | doneOk =>
        simp only [stepTask]
        exact Or.inl ⟨hA1, hA2, hA3,
          noActive_set c c.shared i (o, .doneOk) rfl (fun k hk _ => hA4 k hk)⟩
      | doneErr =>
        simp only [stepTask]
        exact Or.inl ⟨hA1, hA2, hA3,
          noActive_set c c.shared i (o, .doneErr) rfl (fun k hk _ => hA4 k hk)⟩
      | checkingExists => simp [activeP] at hpin
      | checkingPort => simp [activeP] at hpin
      | findingAlt => simp [activeP] at hpin
      | spawning => simp [activeP] at hpin
      | waiting => simp [activeP] at hpin
    · -- one task inside startGatewayInternal
      by_cases hij : i = j
      · subst hij
        have hact2 : activeP p = true := by rw [hgeti] at hact; exact hact
        have hsp2 : c.shared.spawns = if p = TaskPhase.waiting then 1 else 0 := by
          rw [hgeti] at hsp; exact hsp
        have hU : ∀ k, (hk : k < c.tasks.length) → k ≠ i →
            activeP (c.tasks[k]).2 = false := fun k hk hki => huniq k hk hki
        cases p with
        | start => simp [activeP] at hact2
        | discovering => simp [activeP] at hact2
        | doneOk => simp [activeP] at hact2
        | doneErr => simp [activeP] at hact2
        | checkingExists =>
          simp only [stepTask, he, if_true]
          exact Or.inr (Or.inl ⟨hB1, hB2,
            invB_exists c c.shared i hi (o, .checkingPort) rfl hU
              (by simpa using hsp2)⟩)
        | checkingPort =>
          cases hdf : o.defaultFree with
          | true =>
            simp only [stepTask, hdf, if_true]
            exact Or.inr (Or.inl ⟨hB1, hB2,
              invB_exists c { c.shared with currentPort := 5000 } i hi
                (o, .spawning) rfl hU (by simpa using hsp2)⟩)
          | false =>
            simp only [stepTask, hdf, Bool.false_eq_true, if_false]
            exact Or.inr (Or.inl ⟨hB1, hB2,
              invB_exists c c.shared i hi (o, .findingAlt) rfl hU
                (by simpa using hsp2)⟩)
        | findingAlt =>
          cases halt : o.altPort with
          | some q =>
            simp only [stepTask, halt]
            exact Or.inr (Or.inl ⟨hB1, hB2,
              invB_exists c { c.shared with currentPort := q } i hi
                (o, .spawning) rfl hU (by simpa using hsp2)⟩)
          | none =>
            simp only [stepTask, halt]
            exact Or.inr (Or.inl ⟨hB1, hB2,
              invB_exists c { c.shared with currentPort := 5000 } i hi
                (o, .spawning) rfl hU (by simpa using hsp2)⟩)
        | spawning =>
          simp only [stepTask, hrf, if_true]
          have h0 : c.shared.spawns = 0 := by simpa using hsp2
          exact Or.inr (Or.inl ⟨hB1, hB2,
            invB_exists c
              { c.shared with procLive := true, spawns := c.shared.spawns + 1 }
              i hi (o, .waiting) rfl hU (by simp [h0])⟩)
        | waiting =>
          simp only [stepTask, hw, if_true]
          have h1 : c.shared.spawns = 1 := by simpa using hsp2
          refine Or.inr (Or.inr ⟨rfl, rfl, by simp [h1], ?_⟩)
          exact noActive_set c
            { c.shared with isStarting := false, isReady := true } i
            (o, .doneOk) rfl (fun k hk hki => huniq k hk hki)
      · -- the stepped task is outside the startup
        have hpin : activeP p = false := by
          have hx := huniq i hi hij; rw [hgeti] at hx; exact hx
        cases p with
        | start =>
          simp only [stepTask, hB2, Bool.false_eq_true, if_false]
          exact Or.inr (Or.inl ⟨hB1, hB2,
            invB_keep c c.shared i j hj hij (o, .discovering) rfl hact huniq hsp⟩)
        | discovering =>
          have hguard : (c.shared.isStarting || c.shared.isReady) = true := by
            simp [hB1]
          simp only [stepTask, hd, hguard, if_true]
          exact Or.inr (Or.inl ⟨hB1, hB2,
            invB_keep c c.shared i j hj hij (o, .doneOk) rfl hact huniq hsp⟩)
        | doneOk =>
          simp only [stepTask]
          exact Or.inr (Or.inl ⟨hB1, hB2,
            invB_keep c c.shared i j hj hij (o, .doneOk) rfl hact huniq hsp⟩)
        | doneErr =>
          simp only [stepTask]
          exact Or.inr (Or.inl ⟨hB1, hB2,
            invB_keep c c.shared i j hj hij (o, .doneErr) rfl hact huniq hsp⟩)
        | checkingExists => simp [activeP] at hpin
        | checkingPort => simp [activeP] at hpin
        | findingAlt => simp [activeP] at hpin
        | spawning => simp [activeP] at hpin
        | waiting => simp [activeP] at hpin
    · -- a startup completed: isReady blocks every guard
      have hpin : activeP p = false := by
        have hx := hC4 i hi; rw [hgeti] at hx; exact hx
      cases p with
      | start =>
        simp only [stepTask, hC2, if_true]
        exact Or.inr (Or.inr ⟨hC1, hC2, hC3,
          noActive_set c c.shared i (o, .doneOk) rfl (fun k hk _ => hC4 k hk)⟩)
      | discovering =>
        have hguard : (c.shared.isStarting || c.shared.isReady) = true := by
          simp [hC2]
        simp only [stepTask, hd, hguard, if_true]
        exact Or.inr (Or.inr ⟨hC1, hC2, hC3,
          noActive_set c c.shared i (o, .doneOk) rfl (fun k hk _ => hC4 k hk)⟩)
      | doneOk =>
        simp only [stepTask]
        exact Or.inr (Or.inr ⟨hC1, hC2, hC3,
          noActive_set c c.shared i (o, .doneOk) rfl (fun k hk _ => hC4 k hk)⟩)
      | doneErr =>
        simp only [stepTask]
        exact Or.inr (Or.inr ⟨hC1, hC2, hC3,
          noActive_set c c.shared i (o, .doneErr) rfl (fun k hk _ => hC4 k hk)⟩)
      | checkingExists => simp [activeP] at hpin
      | checkingPort => simp [activeP] at hpin
      | findingAlt => simp [activeP] at hpin
      | spawning => simp [activeP] at hpin
      | waiting => simp [activeP] at hpin

theorem goodTasks_step (c : SysConfig) (i : Nat)
    (hg : ∀ t ∈ c.tasks, goodOracle t.1) :
    ∀ t ∈ (stepCfg c i).tasks, goodOracle t.1 := by
  cases hti : c.tasks[i]? with
  | none =>
    simpa only [stepCfg, hti] using hg
  | some op =>
    obtain ⟨o, p⟩ := op
    simp only [stepCfg, hti]
    intro t ht
    rcases List.mem_or_eq_of_mem_set ht with hmem | heq
    · exact hg t hmem
    · obtain ⟨hi, hgeti⟩ := List.getElem?_eq_some_iff.mp hti
      have hmem2 : (o, p) ∈ c.tasks := by rw [← hgeti]; exact List.getElem_mem hi
      have hgood := hg (o, p) hmem2
      rw [heq]
      exact hgood

theorem sysInv_runSched (sched : List Nat) :
    ∀ c : SysConfig, (∀ t ∈ c.tasks, goodOracle t.1) → SysInv c →
      SysInv (runSched c sched) := by
  induction sched with
  | nil => intro c _ h; exact h
  | cons i rest ih =>
    intro c hg h
    exact ih (stepCfg c i) (goodTasks_step c i hg) (sysInv_preserved c i hg h)

theorem sysInv_spawns_le_one (c : SysConfig) (h : SysInv c) :
    c.shared.spawns ≤ 1 := by
  rcases h with ⟨_, _, h0, _⟩ | ⟨_, _, j, hj, _, _, hs⟩ | ⟨_, _, h1, _⟩
  · omega
  · rw [hs]; split <;> omega
  · exact h1

/-- C1 (amended): over every interleaving of any number of concurrent
`ensureGatewayReady` callers on one manager (each caller's discovery
finding no existing gateway, no background handle stored), at most one
spawn occurs provided no startup attempt fails (installation and runtime
present, readiness waits succeed): the `isStarting` guard makes
concurrent callers converge on the single in-flight startup.  When a
startup attempt fails, its reset of `isStarting` re-opens the guard, so
a second spawn can follow a failure (see the counterexample); spawns are
only ever separated by such failure resets. -/
theorem C1_atMostOneSpawn (tasks : List (TaskOracle × TaskPhase)) (sched : List Nat)
    (hg : ∀ t ∈ tasks, goodOracle t.1)
    (hstart : ∀ t ∈ tasks, t.2 = TaskPhase.start) :
    (runSched { shared := initShared, tasks := tasks } sched).shared.spawns ≤ 1 := by
  apply sysInv_spawns_le_one
  apply sysInv_runSched sched { shared := initShared, tasks := tasks } hg
  refine Or.inl ⟨rfl, rfl, rfl, ?_⟩
  intro j hj
  have hmem : tasks[j] ∈ tasks := List.getElem_mem hj
  have hst := hstart _ hmem
  rw [hst]
  rfl

/-- C1 witness: two concurrent callers with nothing failing, run under
the interleaving of the counterexample schedule: at most one spawn. -/
theorem C1_witness :
    (runSched { shared := initShared, tasks := cfgTwoGood.tasks }
      schedFailThenRetry).shared.spawns ≤ 1 :=
  C1_atMostOneSpawn cfgTwoGood.tasks schedFailThenRetry (by decide) (by decide)

/-- C1 counterexample: two concurrent `ensureGatewayReady` callers, both
of whose discoveries find no existing gateway; the first passes the
guard, spawns, and its readiness wait times out, which resets
`isStarting`; the second caller then passes the re-opened guard and
spawns again — two spawn steps in one run, refuting the unconditional
at-most-one-launch claim. -/
theorem C1_counterexample :
    (∀ t ∈ cfgFailThenRetry.tasks, t.1.discover = none) ∧
    (runSched cfgFailThenRetry schedFailThenRetry).shared.spawns = 2 := by
  decide
